import Mathlib

/-!
# Verification of the xinput-dinput-proxy input-routing core

A shallow embedding, in Lean 4, of the parts of the controller-input-router
source that the specification's claims are about:

* `src/core/translation_layer.cpp` — SOCD cleaning, debouncing, the
  stick-deadzone setters, the generic HID axis normalization, and the
  `scaleLongToShort` / `scaleShortToLong` helpers;
* `src/core/virtual_device_emulator.cpp` — virtual-device creation and
  destruction, `sendInput`, the `x360Notification` rumble callback,
  `shutdown`, and the HidHide integration toggles;
* `src/core/device_manager.cpp` — device hiding and `cleanup`;
* `src/utils/hidhide_controller.cpp` — `addDeviceToBlacklist`;
* `src/utils/timing.cpp` — `microsecondsToCounter`.

Machine integers are modelled as `Nat` / `Int` (with explicit wrapping where
the source can overflow), C `float`/`double` arithmetic as exact rational
arithmetic over `ℚ`, and the Win32 / ViGEm / HidHide driver surfaces as
explicit oracle parameters (a call either succeeds or fails; the embedded
code is the caller's reaction to that result).
-/

namespace XDProxy

/-! ## XInput button-mask constants (from `xinput.h`, used throughout the source) -/

def XINPUT_GAMEPAD_DPAD_UP : Nat := 0x0001
def XINPUT_GAMEPAD_DPAD_DOWN : Nat := 0x0002
def XINPUT_GAMEPAD_DPAD_LEFT : Nat := 0x0004
def XINPUT_GAMEPAD_DPAD_RIGHT : Nat := 0x0008
def XINPUT_GAMEPAD_START : Nat := 0x0010
def XINPUT_GAMEPAD_BACK : Nat := 0x0020
def XINPUT_GAMEPAD_LEFT_THUMB : Nat := 0x0040
def XINPUT_GAMEPAD_RIGHT_THUMB : Nat := 0x0080
def XINPUT_GAMEPAD_LEFT_SHOULDER : Nat := 0x0100
def XINPUT_GAMEPAD_RIGHT_SHOULDER : Nat := 0x0200
def XINPUT_GAMEPAD_A : Nat := 0x1000
def XINPUT_GAMEPAD_B : Nat := 0x2000
def XINPUT_GAMEPAD_X : Nat := 0x4000
def XINPUT_GAMEPAD_Y : Nat := 0x8000

/-- A 16-bit button word (`WORD wButtons`) is a natural number below `2^16`.
`b &= ~mask` on a 16-bit `WORD` clears exactly the bits of `mask`: it equals
`b &&& (0xFFFF ^^^ mask)`. -/
def clearBits (b mask : Nat) : Nat := b &&& (0xFFFF ^^^ mask)

/-! ## `TranslationLayer::applySOCDControl` (translation_layer.cpp:195-260)

The source mutates `gamepad.wButtons` in place; the four pressed-flags are
read from the original word before the `switch`, and the only field touched
is `wButtons`, so the function is embedded as a map on the button word,
parametrised by `m_socdMethod`.  The three `switch` branches (0 = Last Win,
1 = First Win, 2/default = Neutral) are kept verbatim, each with its
horizontal clear followed by its vertical clear. -/

def applySOCDControl (socdMethod : Nat) (wButtons : Nat) : Nat :=
  let leftPressed : Bool := wButtons &&& XINPUT_GAMEPAD_DPAD_LEFT != 0
  let rightPressed : Bool := wButtons &&& XINPUT_GAMEPAD_DPAD_RIGHT != 0
  let upPressed : Bool := wButtons &&& XINPUT_GAMEPAD_DPAD_UP != 0
  let downPressed : Bool := wButtons &&& XINPUT_GAMEPAD_DPAD_DOWN != 0
  match socdMethod with
  | 0 =>
    let b1 := if leftPressed && rightPressed then
        clearBits wButtons (XINPUT_GAMEPAD_DPAD_LEFT ||| XINPUT_GAMEPAD_DPAD_RIGHT)
      else wButtons
    let b2 := if upPressed && downPressed then
        clearBits b1 (XINPUT_GAMEPAD_DPAD_UP ||| XINPUT_GAMEPAD_DPAD_DOWN)
      else b1
    b2
  | 1 =>
    let b1 := if leftPressed && rightPressed then
        clearBits wButtons (XINPUT_GAMEPAD_DPAD_LEFT ||| XINPUT_GAMEPAD_DPAD_RIGHT)
      else wButtons
    let b2 := if upPressed && downPressed then
        clearBits b1 (XINPUT_GAMEPAD_DPAD_UP ||| XINPUT_GAMEPAD_DPAD_DOWN)
      else b1
    b2
  | _ =>
    let b1 := if leftPressed && rightPressed then
        clearBits wButtons (XINPUT_GAMEPAD_DPAD_LEFT ||| XINPUT_GAMEPAD_DPAD_RIGHT)
      else wButtons
    let b2 := if upPressed && downPressed then
        clearBits b1 (XINPUT_GAMEPAD_DPAD_UP ||| XINPUT_GAMEPAD_DPAD_DOWN)
      else b1
    b2

/-! ## Scaling helpers (translation_layer.cpp:541-577)

`SHORT` and `LONG` are modelled as `Int`; `scaleLongToShort` clamps a 32-bit
value into the 16-bit signed range, `scaleShortToLong` is the widening cast
(the identity on the mathematical value). -/

def scaleLongToShort (value : Int) : Int :=
  let val := value
  let val := if val > 32767 then (32767 : Int) else val
  let val := if val < -32768 then (-32768 : Int) else val
  val

def scaleShortToLong (value : Int) : Int := value

/-! ## Generic HID axis normalization (translation_layer.cpp:400-456)

The generic fallback of `convertHIDToStandard` looks up the value caps of an
axis usage on usage page `0x01` (defaulting to `0..65535`), computes the
center and range with C integer division, guards `range == 0` by replacing it
with `1`, and normalizes with `double` arithmetic — modelled exactly over `ℚ`
— before truncating to `SHORT` (a C cast truncates toward zero). -/

structure HIDP_VALUE_CAPS where
  usagePage : Nat
  usageMin : Nat
  logicalMin : Int
  logicalMax : Int
deriving DecidableEq

/-- The value-cap search loop of translation_layer.cpp:404-414: first cap on
usage page `0x01` whose `Range.UsageMin` equals the usage wins; the defaults
are `LogicalMin = 0`, `LogicalMax = 65535`. -/
def findLogicalRange (valueCaps : List HIDP_VALUE_CAPS) (usage : Nat) : Int × Int :=
  match valueCaps.find? (fun cap => cap.usagePage == 0x01 && cap.usageMin == usage) with
  | some cap => (cap.logicalMin, cap.logicalMax)
  | none => (0, 65535)

/-- Truncation of a rational toward zero, the semantics of
`static_cast<SHORT>` applied to a `double` value. -/
def truncQ (q : ℚ) : Int := q.num.tdiv (q.den : Int)

/-- Wrapping of an `Int` into the 16-bit signed range, the semantics of a
narrowing `static_cast<SHORT>` on a two-complement machine. -/
def wrapShort (x : Int) : Int := (x + 32768) % 65536 - 32768

/-- The `range` actually used as divisor by the `normalizeAxis` lambda:
`LONG range = logicalMax - logicalMin; if (range == 0) range = 1;`. -/
def axisRange (logicalMin logicalMax : Int) : Int :=
  if logicalMax - logicalMin = 0 then 1 else logicalMax - logicalMin

/-- The `normalizeAxis` lambda of translation_layer.cpp:424-434.  `center`
uses C (truncating) integer division; the `double` computation
`(rawValue - center) / (range / 2.0) * 32767.0` is carried out exactly in
`ℚ`, clamped to the `SHORT` range, truncated toward zero, and negated under
a narrowing cast when `invert` is set. -/
def normalizeAxis (logicalMin logicalMax : Int) (rawValue : Int) (invert : Bool) : Int :=
  let center : Int := (logicalMax + logicalMin).tdiv 2
  let range : Int := axisRange logicalMin logicalMax
  let normalized : ℚ := ((rawValue - center : Int) : ℚ) / ((range : ℚ) / 2) * 32767
  let normalized : ℚ := if normalized > 32767 then (32767 : ℚ) else normalized
  let normalized : ℚ := if normalized < -32768 then (-32768 : ℚ) else normalized
  let result : Int := truncQ normalized
  if invert then wrapShort (-result) else result

/-- Generic-fallback translation of one HID axis value: cap lookup followed
by `normalizeAxis` (translation_layer.cpp:402-434 for one usage). -/
def convertGenericAxis (valueCaps : List HIDP_VALUE_CAPS) (usage : Nat) (value : Int)
    (invert : Bool) : Int :=
  let range := findLogicalRange valueCaps usage
  normalizeAxis range.1 range.2 value invert

/-! ## Stick deadzone and anti-deadzone setters (translation_layer.cpp:130-144)

The four members are `float`; each setter stores
`std::max(0.0f, std::min(1.0f, x))`.  Floats are modelled as `ℚ` (the
clamping logic is value-exact). -/

structure StickParams where
  leftStickDeadzone : ℚ
  rightStickDeadzone : ℚ
  leftStickAntiDeadzone : ℚ
  rightStickAntiDeadzone : ℚ
deriving DecidableEq

/-- Constructor values of `TranslationLayer` for the four stick parameters
(translation_layer.cpp:22-25). -/
def initialStickParams : StickParams :=
  { leftStickDeadzone := 15/100, rightStickDeadzone := 15/100,
    leftStickAntiDeadzone := 0, rightStickAntiDeadzone := 0 }

def setLeftStickDeadzone (s : StickParams) (deadzone : ℚ) : StickParams :=
  { s with leftStickDeadzone := max 0 (min 1 deadzone) }

def setRightStickDeadzone (s : StickParams) (deadzone : ℚ) : StickParams :=
  { s with rightStickDeadzone := max 0 (min 1 deadzone) }

def setLeftStickAntiDeadzone (s : StickParams) (antiDeadzone : ℚ) : StickParams :=
  { s with leftStickAntiDeadzone := max 0 (min 1 antiDeadzone) }

def setRightStickAntiDeadzone (s : StickParams) (antiDeadzone : ℚ) : StickParams :=
  { s with rightStickAntiDeadzone := max 0 (min 1 antiDeadzone) }

/-- One call to any of the four stick setters, with an arbitrary argument. -/
inductive StickSetterCall where
  | leftDz (deadzone : ℚ)
  | rightDz (deadzone : ℚ)
  | leftAntiDz (antiDeadzone : ℚ)
  | rightAntiDz (antiDeadzone : ℚ)

def applyStickSetter (s : StickParams) : StickSetterCall → StickParams
  | .leftDz d => setLeftStickDeadzone s d
  | .rightDz d => setRightStickDeadzone s d
  | .leftAntiDz d => setLeftStickAntiDeadzone s d
  | .rightAntiDz d => setRightStickAntiDeadzone s d

/-- The invariant claimed for the stored parameters. -/
def stickParamsInRange (s : StickParams) : Prop :=
  0 ≤ s.leftStickDeadzone ∧ s.leftStickDeadzone ≤ 1 ∧
  0 ≤ s.rightStickDeadzone ∧ s.rightStickDeadzone ≤ 1 ∧
  0 ≤ s.leftStickAntiDeadzone ∧ s.leftStickAntiDeadzone ≤ 1 ∧
  0 ≤ s.rightStickAntiDeadzone ∧ s.rightStickAntiDeadzone ≤ 1

/-! ## Debouncing (translation_layer.cpp:81-86 and 273-294, timing.cpp)

`m_lastButtonChangeTime` is `std::array<uint64_t, 16>`.
`TimingUtils::microsecondsToCounter(us)` is `us * frequency / 1'000'000` in
`uint64_t`; the performance-counter frequency is a machine parameter.  The
`uint64_t` subtraction `currentTime - last` wraps modulo `2^64`. -/

def MAX_CONTROLLERS : Nat := 16

def microsecondsToCounter (frequency microseconds : Nat) : Nat :=
  microseconds * frequency % 2 ^ 64 / 1000000

structure DebounceState where
  lastButtonChangeTime : Fin MAX_CONTROLLERS → Nat

/-- `TranslationLayer::applyDebouncing` (translation_layer.cpp:273-294).
Returns the `bool` result, the value left in the `cleanedButtons` out
parameter (which the caller initialized to `cleanedButtonsIn`), and the
updated per-slot timestamp array. -/
def applyDebouncing (frequency debounceIntervalMs : Nat) (st : DebounceState)
    (currentTime : Nat) (userId : Int) (currentButtons cleanedButtonsIn : Nat) :
    Bool × Nat × DebounceState :=
  if h : userId < 0 ∨ (MAX_CONTROLLERS : Int) ≤ userId then
    (true, currentButtons, st)
  else
    let idx : Fin MAX_CONTROLLERS := ⟨userId.toNat, by omega⟩
    let timeThreshold := microsecondsToCounter frequency (debounceIntervalMs * 1000)
    let elapsed := (currentTime + 2 ^ 64 - st.lastButtonChangeTime idx) % 2 ^ 64
    if elapsed < timeThreshold then
      (false, cleanedButtonsIn, st)
    else
      (true, currentButtons,
        ⟨Function.update st.lastButtonChangeTime idx currentTime⟩)

/-- The debouncing stage of `TranslationLayer::translate`
(translation_layer.cpp:81-86), applied to the button word of one translated
state: `cleanedButtons` is initialized to the current word, and the word is
overwritten with it only when `applyDebouncing` returns true. -/
def translateDebounceStage (frequency debounceIntervalMs : Nat) (debouncingEnabled : Bool)
    (st : DebounceState) (currentTime : Nat) (sourceUserId : Int) (wButtons : Nat) :
    Nat × DebounceState :=
  if debouncingEnabled then
    let cleanedButtons := wButtons
    let r := applyDebouncing frequency debounceIntervalMs st currentTime sourceUserId
      wButtons cleanedButtons
    (if r.1 then r.2.1 else wButtons, r.2.2)
  else (wButtons, st)

/-! ## HidHide controller (hidhide_controller.cpp)

The driver connection and its IOCTLs are modelled by an explicit state: the
`m_connected` flag, the function-local `static bool hidHideFailed` latch of
`addDeviceToBlacklist`, and the observable driver blacklist (a multistring
list).  IOCTLs reach the driver exactly when the controller is connected;
`getBlacklist` returns the empty list otherwise. -/

structure HidHideState where
  connected : Bool
  hidHideFailedLatch : Bool
  driverBlacklist : List String
deriving DecidableEq

/-- `HidHideController::getBlacklist` (hidhide_controller.cpp:260-323):
returns the driver list when connected, the empty list otherwise. -/
def getBlacklist (h : HidHideState) : List String :=
  if h.connected then h.driverBlacklist else []

/-- `HidHideController::addDeviceToBlacklist` (hidhide_controller.cpp:130-196).
Read-modify-write: fetch the full current list; an empty fetch trips the
`hidHideFailed` latch and fails, a tripped latch fails silently, a present
path is a no-op success, and otherwise the full list plus the new path is
written back. -/
def addDeviceToBlacklist (h : HidHideState) (devicePath : String) : Bool × HidHideState :=
  if !h.connected then (false, h)
  else
    let currentList := getBlacklist h
    if currentList.isEmpty && !h.hidHideFailedLatch then
      (false, { h with hidHideFailedLatch := true })
    else if h.hidHideFailedLatch then (false, h)
    else if currentList.contains devicePath then (true, h)
    else (true, { h with driverBlacklist := currentList ++ [devicePath] })

/-- `HidHideController::removeDeviceFromBlacklist`
(hidhide_controller.cpp:198-240). -/
def removeDeviceFromBlacklist (h : HidHideState) (devicePath : String) : Bool × HidHideState :=
  if !h.connected then (false, h)
  else
    let currentList := getBlacklist h
    if currentList.contains devicePath then
      (true, { h with driverBlacklist := currentList.erase devicePath })
    else (true, h)

/-! ## Virtual-device emulator (virtual_device_emulator.cpp)

ViGEm driver calls (`vigem_target_add`, `vigem_target_x360_update`, ...) are
oracles: each call site takes a `Bool` telling whether the driver succeeded.
The report payload itself does not influence any control flow under
verification, so a `TranslatedState` is carried by its routing fields. -/

inductive TargetType where
  | TARGET_XINPUT
  | TARGET_DINPUT
deriving DecidableEq, BEq

structure TranslatedState where
  sourceUserId : Int
  targetType : TargetType
deriving DecidableEq

structure VirtualDevice where
  id : Nat
  type : TargetType
  userId : Int
  sourceName : String
  connected : Bool
  hasTarget : Bool
deriving DecidableEq

structure EmulatorState where
  initialized : Bool
  running : Bool
  vigemClientValid : Bool
  hidHideEnabled : Bool
  hidHideControllerAllocated : Bool
  rumbleEnabled : Bool
  rumbleIntensity : ℚ
  rumbleCallbackSet : Bool
  virtualDevices : List VirtualDevice
  injectionQueue : List TranslatedState
deriving DecidableEq

/-- `VirtualDeviceEmulator::x360Notification`
(virtual_device_emulator.cpp:14-28): when a rumble callback is registered it
is invoked with the user id from the notification userData and
`largeMotor / 255.0f`, `smallMotor / 255.0f`; the result records the
callback invocation (user id, left, right), `none` when no callback runs. -/
def x360Notification (s : EmulatorState) (largeMotor smallMotor : Nat) (userData : Int) :
    Option (Int × ℚ × ℚ) :=
  if s.rumbleCallbackSet then
    some (userData, (largeMotor : ℚ) / 255, (smallMotor : ℚ) / 255)
  else none

/-- The id-search loop of `createVirtualDevice` terminates: some id is free
(any id larger than the sum of all live ids is). -/
def existsFreeId (devices : List VirtualDevice) :
    ∃ n, devices.any (fun d => d.id == n) = false := by
  refine ⟨(devices.map (fun d => d.id)).sum + 1, List.any_eq_false.mpr ?_⟩
  intro d hd
  have hle : d.id ≤ (devices.map (fun d => d.id)).sum :=
    List.single_le_sum (fun x _ => Nat.zero_le x) _ (List.mem_map_of_mem _ hd)
  simp only [beq_iff_eq]
  omega

/-- The id-search loop of `createVirtualDevice`
(virtual_device_emulator.cpp:159-163): `newId` starts at 0 and is
incremented while some live device already holds it, i.e. the result is the
least natural number not currently in use. -/
def findAvailableId (devices : List VirtualDevice) : Nat :=
  Nat.find (existsFreeId devices)

/-- `VirtualDeviceEmulator::createVirtualDevice`
(virtual_device_emulator.cpp:152-200).  `targetCreationOk` is the oracle for
`createVirtual{X,D}InputDeviceTarget` returning a non-null target; the
record is appended only after a successful target creation. -/
def createVirtualDevice (s : EmulatorState) (ty : TargetType) (userId : Int)
    (sourceName : String) (targetCreationOk : Bool) : Int × EmulatorState :=
  if !s.initialized then (-1, s)
  else
    let newId := findAvailableId s.virtualDevices
    if !targetCreationOk then (-1, s)
    else ((newId : Int),
      { s with virtualDevices := s.virtualDevices ++
          [{ id := newId, type := ty, userId := userId, sourceName := sourceName,
             connected := true, hasTarget := true }] })

/-- `VirtualDeviceEmulator::destroyVirtualDevice`
(virtual_device_emulator.cpp:202-227): erase the first device with the given
id, if any. -/
def destroyVirtualDevice (s : EmulatorState) (deviceId : Int) : Bool × EmulatorState :=
  if !s.initialized then (false, s)
  else if (s.virtualDevices.find? (fun d => (d.id : Int) == deviceId)).isSome then
    (true, { s with virtualDevices :=
        s.virtualDevices.eraseP (fun d => (d.id : Int) == deviceId) })
  else (false, s)

/-- `VirtualDeviceEmulator::shutdown` (virtual_device_emulator.cpp:94-123). -/
def emulatorShutdown (s : EmulatorState) : EmulatorState :=
  if !s.initialized then s
  else { s with
          running := false, virtualDevices := [],
          vigemClientValid := false, initialized := false }

/-- Marks the first device matching `(userId, ty)` as disconnected, the
effect of `it->connected = false` on the found iterator. -/
def markDisconnected (devices : List VirtualDevice) (userId : Int) (ty : TargetType) :
    List VirtualDevice :=
  match devices with
  | [] => []
  | d :: rest =>
    if d.userId == userId && d.type == ty then { d with connected := false } :: rest
    else d :: markDisconnected rest userId ty

/-- `VirtualDeviceEmulator::sendToVirtualXInputDevice`
(virtual_device_emulator.cpp:384-425).  `updateOk` is the oracle for
`vigem_target_x360_update`; on a failed update the found target is marked
disconnected and the call reports failure. -/
def sendToVirtualXInputDevice (s : EmulatorState) (userId : Int) (updateOk : Bool) :
    Bool × EmulatorState :=
  match s.virtualDevices.find?
      (fun d => d.userId == userId && d.type == TargetType.TARGET_XINPUT) with
  | none => (false, s)
  | some d =>
    if !d.hasTarget || !d.connected then (false, s)
    else if !s.vigemClientValid then (false, s)
    else if updateOk then (true, s)
    else (false, { s with
                    virtualDevices :=
                      markDisconnected s.virtualDevices userId TargetType.TARGET_XINPUT })

/-- `VirtualDeviceEmulator::sendToVirtualDInputDevice`
(virtual_device_emulator.cpp:427-518), same control flow for DS4 targets. -/
def sendToVirtualDInputDevice (s : EmulatorState) (userId : Int) (updateOk : Bool) :
    Bool × EmulatorState :=
  match s.virtualDevices.find?
      (fun d => d.userId == userId && d.type == TargetType.TARGET_DINPUT) with
  | none => (false, s)
  | some d =>
    if !d.hasTarget || !d.connected then (false, s)
    else if !s.vigemClientValid then (false, s)
    else if updateOk then (true, s)
    else (false, { s with
                    virtualDevices :=
                      markDisconnected s.virtualDevices userId TargetType.TARGET_DINPUT })

/-- `VirtualDeviceEmulator::sendInput` (virtual_device_emulator.cpp:125-150):
each state is submitted immediately; a failed submission appends the state
to the retry queue; the function returns true whenever initialized. -/
def sendInput (s : EmulatorState) (translatedStates : List TranslatedState)
    (updateOk : TranslatedState → Bool) : Bool × EmulatorState :=
  if !s.initialized then (false, s)
  else
    (true, translatedStates.foldl (fun acc state =>
      match state.targetType with
      | .TARGET_XINPUT =>
        let r := sendToVirtualXInputDevice acc state.sourceUserId (updateOk state)
        if r.1 then r.2 else { r.2 with injectionQueue := r.2.injectionQueue ++ [state] }
      | .TARGET_DINPUT =>
        let r := sendToVirtualDInputDevice acc state.sourceUserId (updateOk state)
        if r.1 then r.2 else { r.2 with injectionQueue := r.2.injectionQueue ++ [state] }) s)

/-- `VirtualDeviceEmulator::disconnectHidHide`
(virtual_device_emulator.cpp:550-555). -/
def disconnectHidHide (emu : EmulatorState) (hh : HidHideState) : HidHideState :=
  if emu.hidHideControllerAllocated then { hh with connected := false } else hh

/-- `VirtualDeviceEmulator::enableHidHideIntegration`
(virtual_device_emulator.cpp:520-534).  `driverPresent` is the oracle for
`CreateFileW` on the HidHide device succeeding inside `connect()`. -/
def enableHidHideIntegration (emu : EmulatorState) (hh : HidHideState) (enable : Bool)
    (driverPresent : Bool) : EmulatorState × HidHideState :=
  if emu.hidHideEnabled == enable then (emu, hh)
  else if enable then
    let emu := { emu with hidHideEnabled := true, hidHideControllerAllocated := true }
    let hh := if driverPresent then { hh with connected := true } else hh
    (emu, hh)
  else
    let emu := { emu with hidHideEnabled := false }
    (emu, disconnectHidHide emu hh)

/-- `VirtualDeviceEmulator::addPhysicalDeviceToHidHideBlacklist`
(virtual_device_emulator.cpp:557-576). -/
def addPhysicalDeviceToHidHideBlacklist (emu : EmulatorState) (hh : HidHideState)
    (deviceInstanceId : String) : Bool × HidHideState :=
  if !emu.hidHideEnabled || !emu.hidHideControllerAllocated then (false, hh)
  else addDeviceToBlacklist hh deviceInstanceId

/-- `VirtualDeviceEmulator::removePhysicalDeviceFromHidHideBlacklist`
(virtual_device_emulator.cpp:578-597). -/
def removePhysicalDeviceFromHidHideBlacklist (emu : EmulatorState) (hh : HidHideState)
    (deviceInstanceId : String) : Bool × HidHideState :=
  if !emu.hidHideEnabled || !emu.hidHideControllerAllocated then (false, hh)
  else removeDeviceFromBlacklist hh deviceInstanceId

/-! ## Device manager (device_manager.cpp) -/

structure DeviceManagerState where
  hiddenDeviceIds : List String
  failedToHideDeviceIds : List String
  activeVirtualXInputDevices : List (Int × Int)
  activeVirtualDInputDevices : List (Int × Int)
deriving DecidableEq

/-- `DeviceManager::hidePhysicalDevice` (device_manager.cpp:56-94): skip
empty and XInput-stack instance ids, honour the hidden and failed caches,
otherwise attempt the blacklist addition and record the outcome.  The two
id sets are `std::set`; insertion of an absent element is appension here. -/
def hidePhysicalDevice (emu : EmulatorState) (hh : HidHideState) (dm : DeviceManagerState)
    (deviceInstanceId : String) (userId : Int) : Bool × HidHideState × DeviceManagerState :=
  if deviceInstanceId == "" then (false, hh, dm)
  else if 0 ≤ userId then (false, hh, dm)
  else if dm.hiddenDeviceIds.contains deviceInstanceId then (true, hh, dm)
  else if dm.failedToHideDeviceIds.contains deviceInstanceId then (false, hh, dm)
  else
    let r := addPhysicalDeviceToHidHideBlacklist emu hh deviceInstanceId
    if r.1 then
      (true, r.2,
        { dm with hiddenDeviceIds := dm.hiddenDeviceIds ++ [deviceInstanceId] })
    else
      (false, r.2,
        { dm with failedToHideDeviceIds := dm.failedToHideDeviceIds ++ [deviceInstanceId] })

/-- `DeviceManager::cleanup` (device_manager.cpp:165-187): the unhide loop and
the clearing of `m_hiddenDeviceIds` run only when HidHide integration is
enabled on the emulator; the two virtual-device maps are always destroyed
and cleared. -/
def deviceManagerCleanup (emu : EmulatorState) (hh : HidHideState) (dm : DeviceManagerState) :
    EmulatorState × HidHideState × DeviceManagerState :=
  let step1 : HidHideState × DeviceManagerState :=
    if emu.hidHideEnabled then
      let hh1 := dm.hiddenDeviceIds.foldl
        (fun acc devId => (removePhysicalDeviceFromHidHideBlacklist emu acc devId).2) hh
      (disconnectHidHide emu hh1, { dm with hiddenDeviceIds := [] })
    else (hh, dm)
  let emu1 := step1.2.activeVirtualXInputDevices.foldl
    (fun e p => (destroyVirtualDevice e p.2).2) emu
  let emu2 := step1.2.activeVirtualDInputDevices.foldl
    (fun e p => (destroyVirtualDevice e p.2).2) emu1
  (emu2, step1.1,
    { step1.2 with activeVirtualXInputDevices := [], activeVirtualDInputDevices := [] })

/-- An emulator state right after a successful `initialize()`: connected to
the bus driver, no targets yet (virtual_device_emulator.cpp:30-92). -/
def emulatorReadyState : EmulatorState :=
  { initialized := true, running := true, vigemClientValid := true,
    hidHideEnabled := false, hidHideControllerAllocated := false,
    rumbleEnabled := true, rumbleIntensity := 1, rumbleCallbackSet := false,
    virtualDevices := [], injectionQueue := [] }

/-- A sample live virtual target holding id 0. -/
def padDevice0 : VirtualDevice :=
  { id := 0, type := .TARGET_XINPUT, userId := 0, sourceName := "pad",
    connected := true, hasTarget := true }

/-- An initialized emulator with exactly one live target, `padDevice0`. -/
def emulatorOnePadState : EmulatorState :=
  { emulatorReadyState with virtualDevices := [padDevice0] }

/-- An initialized emulator with a registered rumble callback and the global
rumble intensity turned down to one half. -/
def emulatorHalfIntensityState : EmulatorState :=
  { emulatorReadyState with rumbleCallbackSet := true, rumbleIntensity := 1/2 }

/-- A connected HidHide controller whose driver blacklist already holds two
entries (one of them owned by another process). -/
def hidHideConnectedState : HidHideState :=
  { connected := true, hidHideFailedLatch := false, driverBlacklist := ["other", "dev"] }

/-- A HidHide controller before this process connects: the driver blacklist
already holds an entry owned by another process. -/
def hidHideStartState : HidHideState :=
  { connected := false, hidHideFailedLatch := false, driverBlacklist := ["other"] }

/-- A device manager that has not hidden anything yet. -/
def dmEmptyState : DeviceManagerState :=
  { hiddenDeviceIds := [], failedToHideDeviceIds := [],
    activeVirtualXInputDevices := [], activeVirtualDInputDevices := [] }

/-! A session in which HidHide integration is enabled, one HID-stack device
gets hidden, integration is then disabled from the dashboard, and shutdown
cleanup runs last. -/

def traceEnableHidHide : EmulatorState × HidHideState :=
  enableHidHideIntegration emulatorReadyState hidHideStartState true true

def traceHideDevice : Bool × HidHideState × DeviceManagerState :=
  hidePhysicalDevice traceEnableHidHide.1 traceEnableHidHide.2 dmEmptyState "devX" (-1)

def traceDisableHidHide : EmulatorState × HidHideState :=
  enableHidHideIntegration traceEnableHidHide.1 traceHideDevice.2.1 false true

def traceCleanupResult : EmulatorState × HidHideState × DeviceManagerState :=
  deviceManagerCleanup traceDisableHidHide.1 traceDisableHidHide.2 traceHideDevice.2.2

/-! ## Helper lemmas -/

theorem socd_maskH : (65535 ^^^ 12 : Nat) = 65523 := by decide

theorem socd_maskV : (65535 ^^^ 3 : Nat) = 65532 := by decide

theorem socd_landA : (65523 &&& 12 : Nat) = 0 := by decide

theorem socd_landB : (65532 &&& 12 : Nat) = 12 := by decide

theorem socd_landC : (65523 &&& 3 : Nat) = 3 := by decide

theorem socd_landD : (65532 &&& 3 : Nat) = 0 := by decide

theorem socd_landE : (65523 &&& 65520 : Nat) = 65520 := by decide

theorem socd_landF : (65532 &&& 65520 : Nat) = 65520 := by decide

theorem socd_lorH : (4 ||| 8 : Nat) = 12 := by decide

theorem socd_lorV : (1 ||| 2 : Nat) = 3 := by decide

/-! ## Claim C5 -/

/-- Claim C5: for every gamepad button word, SOCD resolution with method
FirstWin (1) or LastWin (0) produces exactly the same result as with method
Neutral (2); and that common behavior clears both opposing d-pad bits of an
axis exactly when both are set, independently per axis, leaving every other
bit of the word unchanged. -/
theorem applySOCDControl_methods_equivalent (b : Nat) :
    (applySOCDControl 0 b = applySOCDControl 2 b) ∧
    (applySOCDControl 1 b = applySOCDControl 2 b) ∧
    ((b &&& XINPUT_GAMEPAD_DPAD_LEFT ≠ 0 ∧ b &&& XINPUT_GAMEPAD_DPAD_RIGHT ≠ 0) →
      applySOCDControl 2 b &&& (XINPUT_GAMEPAD_DPAD_LEFT ||| XINPUT_GAMEPAD_DPAD_RIGHT) = 0) ∧
    (¬(b &&& XINPUT_GAMEPAD_DPAD_LEFT ≠ 0 ∧ b &&& XINPUT_GAMEPAD_DPAD_RIGHT ≠ 0) →
      applySOCDControl 2 b &&& (XINPUT_GAMEPAD_DPAD_LEFT ||| XINPUT_GAMEPAD_DPAD_RIGHT) =
        b &&& (XINPUT_GAMEPAD_DPAD_LEFT ||| XINPUT_GAMEPAD_DPAD_RIGHT)) ∧
    ((b &&& XINPUT_GAMEPAD_DPAD_UP ≠ 0 ∧ b &&& XINPUT_GAMEPAD_DPAD_DOWN ≠ 0) →
      applySOCDControl 2 b &&& (XINPUT_GAMEPAD_DPAD_UP ||| XINPUT_GAMEPAD_DPAD_DOWN) = 0) ∧
    (¬(b &&& XINPUT_GAMEPAD_DPAD_UP ≠ 0 ∧ b &&& XINPUT_GAMEPAD_DPAD_DOWN ≠ 0) →
      applySOCDControl 2 b &&& (XINPUT_GAMEPAD_DPAD_UP ||| XINPUT_GAMEPAD_DPAD_DOWN) =
        b &&& (XINPUT_GAMEPAD_DPAD_UP ||| XINPUT_GAMEPAD_DPAD_DOWN)) ∧
    (applySOCDControl 2 b &&& 0xFFF0 = b &&& 0xFFF0) := by
  refine ⟨rfl, rfl, ?_, ?_, ?_, ?_, ?_⟩ <;>
  · by_cases hL : b &&& 0x4 = 0 <;> by_cases hR : b &&& 0x8 = 0 <;>
      by_cases hU : b &&& 0x1 = 0 <;> by_cases hD : b &&& 0x2 = 0 <;>
      simp only [applySOCDControl, clearBits, XINPUT_GAMEPAD_DPAD_LEFT,
        XINPUT_GAMEPAD_DPAD_RIGHT, XINPUT_GAMEPAD_DPAD_UP, XINPUT_GAMEPAD_DPAD_DOWN,
        Bool.and_eq_true, bne_iff_ne, ne_eq, hL, hR, hU, hD,
        not_false_eq_true, not_true_eq_false, and_self, and_true,
        and_false, true_and, false_and, if_true, if_false, ite_true, ite_false,
        socd_maskH, socd_maskV, socd_lorH, socd_lorV, Nat.land_assoc,
        socd_landA, socd_landB, socd_landC,
        socd_landD, socd_landE, socd_landF,
        Nat.and_zero, not_false_iff, imp_self, implies_true, IsEmpty.forall_iff,
        forall_true_left]

/-! ## Claim C7 -/

/-- Claim C7: for every 32-bit signed integer x,
`scaleShortToLong (scaleLongToShort x)` equals `clamp (x, -32768, 32767)`:
`scaleLongToShort` clamps into the 16-bit signed range and
`scaleShortToLong` is the sign-preserving widening cast. -/
theorem scaleShortToLong_scaleLongToShort_clamp (x : Int)
    (h1 : -(2 ^ 31) ≤ x) (h2 : x < 2 ^ 31) :
    scaleShortToLong (scaleLongToShort x) = max (-32768) (min 32767 x) := by
  simp only [scaleShortToLong, scaleLongToShort]
  split_ifs <;> omega

/-- Claim C7 witness: the round trip at the in-range input 100000 clamps to
32767. -/
theorem scaleShortToLong_scaleLongToShort_clamp_witness :
    -(2 ^ 31) ≤ (100000 : Int) ∧ (100000 : Int) < 2 ^ 31 ∧
    scaleShortToLong (scaleLongToShort 100000) = max (-32768) (min 32767 100000) :=
  ⟨by decide, by decide,
    scaleShortToLong_scaleLongToShort_clamp 100000 (by decide) (by decide)⟩

/-! ## Claim C8 -/

/-- Claim C8: for a generic HID axis whose value caps declare a zero-width
logical range (`LogicalMin = LogicalMax`), translation does not divide by
zero (the guarded range is nonzero) and, for every raw value within the
declared range, the canonical axis value is 0. -/
theorem normalizeAxis_zero_width_range (lo hi v : Int) (invert : Bool)
    (hzero : hi = lo) (h1 : lo ≤ v) (h2 : v ≤ hi) :
    axisRange lo hi ≠ 0 ∧ normalizeAxis lo hi v invert = 0 := by
  subst hzero
  have hv : v = hi := le_antisymm h2 h1
  subst hv
  constructor
  · simp [axisRange]
  · simp only [normalizeAxis, axisRange]
    rw [show (v + v).tdiv 2 = v from by
      rw [show v + v = 2 * v from by ring, Int.mul_tdiv_cancel_left _ (by norm_num)]]
    norm_num [truncQ, wrapShort]

/-- Claim C8 witness: a zero-width range declared as `500..500`, with raw
value 500, yields a nonzero guarded range and canonical value 0. -/
theorem normalizeAxis_zero_width_range_witness :
    (500 : Int) = 500 ∧ axisRange 500 500 ≠ 0 ∧ normalizeAxis 500 500 500 false = 0 :=
  ⟨rfl, (normalizeAxis_zero_width_range 500 500 500 false rfl le_rfl le_rfl).1,
    (normalizeAxis_zero_width_range 500 500 500 false rfl le_rfl le_rfl).2⟩

/-! ## Claim C10 -/

theorem applyStickSetter_preserves_range (s : StickParams) (c : StickSetterCall)
    (hs : stickParamsInRange s) : stickParamsInRange (applyStickSetter s c) := by
  have hclamp : ∀ d : ℚ, 0 ≤ max 0 (min 1 d) ∧ max 0 (min 1 d) ≤ 1 := fun d =>
    ⟨le_max_left _ _, max_le (by norm_num) (min_le_left _ _)⟩
  obtain ⟨a1, a2, a3, a4, a5, a6, a7, a8⟩ := hs
  cases c with
  | leftDz d =>
    exact ⟨(hclamp d).1, (hclamp d).2, a3, a4, a5, a6, a7, a8⟩
  | rightDz d =>
    exact ⟨a1, a2, (hclamp d).1, (hclamp d).2, a5, a6, a7, a8⟩
  | leftAntiDz d =>
    exact ⟨a1, a2, a3, a4, (hclamp d).1, (hclamp d).2, a7, a8⟩
  | rightAntiDz d =>
    exact ⟨a1, a2, a3, a4, a5, a6, (hclamp d).1, (hclamp d).2⟩

/-- Claim C10: the stick deadzone and anti-deadzone setters clamp their
argument into `[0, 1]`, so after any sequence of setter calls with
arbitrary arguments, starting from the constructor state, the four stored
parameters are within `[0, 1]`. -/
theorem stick_setters_keep_params_in_range (calls : List StickSetterCall) :
    stickParamsInRange (calls.foldl applyStickSetter initialStickParams) := by
  have hinit : stickParamsInRange initialStickParams := by
    refine ⟨?_, ?_, ?_, ?_, ?_, ?_, ?_, ?_⟩ <;> norm_num [initialStickParams]
  have key : ∀ (l : List StickSetterCall) (s : StickParams), stickParamsInRange s →
      stickParamsInRange (l.foldl applyStickSetter s) := by
    intro l
    induction l with
    | nil => intro s hs; simpa using hs
    | cons c cs ih => intro s hs; exact ih _ (applyStickSetter_preserves_range s c hs)
  exact key _ _ hinit

/-! ## Claim C2 -/

/-- Claim C2 (code bug): with debouncing enabled, slot 0, a 10 ms debounce
interval, a counter frequency of 10^6 ticks per second, the last recorded
change for slot 0 at tick 1000, and a new button word 0x1000 arriving at
tick 1001 (1 µs later, well inside the interval), the debouncing stage of
`translate` outputs the NEW word 0x1000 and leaves the timestamp at 1000:
the arriving word is not discarded in favor of the previous one (no previous
word is even stored), contrary to the claim and to the stated purpose of
`applyDebouncing` in the source. -/
theorem debounce_keeps_new_word_within_interval :
    ((1001 + 2 ^ 64 - 1000) % 2 ^ 64 < microsecondsToCounter 1000000 (10 * 1000)) ∧
    (translateDebounceStage 1000000 10 true ⟨fun _ => 1000⟩ 1001 0 0x1000).1 = 0x1000 ∧
    (translateDebounceStage 1000000 10 true
        ⟨fun _ => 1000⟩ 1001 0 0x1000).2.lastButtonChangeTime ⟨0, by decide⟩ = 1000 := by
  refine ⟨?_, ?_, ?_⟩ <;> decide

/-! ## Claim C1 -/

theorem findAvailableId_not_in_use (devices : List VirtualDevice) :
    devices.any (fun d => d.id == findAvailableId devices) = false :=
  Nat.find_spec (existsFreeId devices)

theorem findAvailableId_nil : findAvailableId [] = 0 := by
  rw [findAvailableId, Nat.find_eq_zero]
  rfl

theorem findAvailableId_one_device_id0 (d : VirtualDevice) (h : d.id = 0) :
    findAvailableId [d] = 1 := by
  rw [findAvailableId, Nat.find_eq_iff]
  refine ⟨by simp [h], ?_⟩
  intro m hm
  interval_cases m
  simp [h]

/-- Claim C1 counterexample: starting from a freshly initialized emulator,
`createVirtualDevice` succeeds and returns id 0; after that target is
destroyed, the next successful `createVirtualDevice` returns 0 again — the
same id as an earlier successful call of the session — so ids are reused
once a target is destroyed. -/
theorem createVirtualDevice_reuses_id_after_destroy :
    (createVirtualDevice emulatorReadyState .TARGET_XINPUT 0 "pad" true).1 = 0 ∧
    (createVirtualDevice
        (destroyVirtualDevice
          (createVirtualDevice emulatorReadyState .TARGET_XINPUT 0 "pad" true).2 0).2
        .TARGET_XINPUT 0 "pad" true).1 = 0 := by
  have hfind0 : findAvailableId emulatorReadyState.virtualDevices = 0 := findAvailableId_nil
  constructor
  · simp [createVirtualDevice, emulatorReadyState, findAvailableId_nil]
  · simp [createVirtualDevice, destroyVirtualDevice, emulatorReadyState,
      findAvailableId_nil, List.find?, List.eraseP]

/-- Claim C1 (amended): while the emulator is initialized, every successful
`createVirtualDevice` call returns the least id not currently in use, hence
an id strictly different from the id of every target alive at the time of
the call; ids of destroyed targets can be reused. -/
theorem createVirtualDevice_id_fresh_among_live (s : EmulatorState) (ty : TargetType)
    (userId : Int) (sourceName : String) (targetCreationOk : Bool)
    (hinit : s.initialized = true)
    (hsucc : (createVirtualDevice s ty userId sourceName targetCreationOk).1 ≠ -1) :
    ∀ d ∈ s.virtualDevices,
      (d.id : Int) ≠ (createVirtualDevice s ty userId sourceName targetCreationOk).1 := by
  intro d hd
  by_cases hok : targetCreationOk
  · have hres : (createVirtualDevice s ty userId sourceName targetCreationOk).1 =
        ((findAvailableId s.virtualDevices : Nat) : Int) := by
      simp [createVirtualDevice, hinit, hok]
    rw [hres]
    have hspec := findAvailableId_not_in_use s.virtualDevices
    rw [List.any_eq_false] at hspec
    have hne := hspec d hd
    simp only [beq_iff_eq] at hne
    exact fun hcast => hne (by exact_mod_cast hcast)
  · simp [createVirtualDevice, hinit, hok] at hsucc

/-- Claim C1 witness: in an initialized emulator holding one live target with
id 0, a successful `createVirtualDevice` returns an id (namely 1) different
from 0, the id of the live target. -/
theorem createVirtualDevice_id_fresh_among_live_witness :
    ((createVirtualDevice emulatorOnePadState .TARGET_XINPUT 1 "pad2" true).1 ≠ -1) ∧
    (∀ d ∈ emulatorOnePadState.virtualDevices,
      (d.id : Int) ≠
        (createVirtualDevice emulatorOnePadState .TARGET_XINPUT 1 "pad2" true).1) := by
  have hfind1 : findAvailableId [padDevice0] = 1 :=
    findAvailableId_one_device_id0 _ rfl
  refine ⟨?_, ?_⟩
  · simp [createVirtualDevice, emulatorOnePadState, emulatorReadyState, hfind1]
  · exact createVirtualDevice_id_fresh_among_live _ _ _ _ _ rfl
      (by simp [createVirtualDevice, emulatorOnePadState, emulatorReadyState, hfind1])

/-! ## Claim C3 -/

/-- Claim C3 counterexample: with a rumble callback registered and the
global rumble intensity set to 1/2, an inbound notification with large-motor
byte 255 and small-motor byte 0 invokes the callback with
left = 255/255 = 1, which differs from the claimed
(255/255) · rumble_intensity = 1/2: the notification path does not scale by
the intensity before the callback. -/
theorem x360Notification_ignores_rumble_intensity :
    x360Notification emulatorHalfIntensityState 255 0 3 =
      some (3, (255 : ℚ) / 255, (0 : ℚ) / 255) ∧
    (255 : ℚ) / 255 ≠ (255 : ℚ) / 255 * emulatorHalfIntensityState.rumbleIntensity := by
  refine ⟨rfl, ?_⟩
  norm_num [emulatorHalfIntensityState]

/-- Claim C3 (amended): for every inbound rumble notification, when a rumble
callback is registered the emulator invokes it with the linked user id and
left = L/255, right = S/255 in [0,1]; the global rumble_intensity is not
applied on this path (it only scales the synthetic test pulses of the
enable/intensity setters). -/
theorem x360Notification_normalizes_motors (s : EmulatorState)
    (largeMotor smallMotor : Nat) (userData : Int) (hcb : s.rumbleCallbackSet = true) :
    x360Notification s largeMotor smallMotor userData =
      some (userData, (largeMotor : ℚ) / 255, (smallMotor : ℚ) / 255) := by
  simp [x360Notification, hcb]

/-- Claim C3 witness: the amended statement evaluated in a state with a
registered callback, at motor bytes 200 and 100 for user 4. -/
theorem x360Notification_normalizes_motors_witness :
    x360Notification emulatorHalfIntensityState 200 100 4 =
      some (4, (200 : ℚ) / 255, (100 : ℚ) / 255) :=
  x360Notification_normalizes_motors emulatorHalfIntensityState 200 100 4 rfl

/-! ## Claim C6 -/

/-- Claim C6: `addDeviceToBlacklist` is a read-modify-write of the full
driver blacklist that never drops an existing entry, does not duplicate an
id already present (the observable state is then unchanged), and is
idempotent: performing it twice leaves the state of the first call. -/
theorem addDeviceToBlacklist_rmw_idempotent (h : HidHideState) (devicePath : String) :
    (∀ e ∈ h.driverBlacklist, e ∈ (addDeviceToBlacklist h devicePath).2.driverBlacklist) ∧
    (devicePath ∈ h.driverBlacklist → (addDeviceToBlacklist h devicePath).2 = h) ∧
    (addDeviceToBlacklist (addDeviceToBlacklist h devicePath).2 devicePath).2 =
      (addDeviceToBlacklist h devicePath).2 := by
  obtain ⟨hc, hl, bl⟩ := h
  cases hc <;> cases hl <;>
    simp_all [addDeviceToBlacklist, getBlacklist] <;>
    rcases hbl : bl with _ | ⟨x, xs⟩ <;>
    by_cases hmem : devicePath ∈ bl <;>
    simp_all [List.isEmpty_iff, List.elem_eq_mem]

/-- Claim C6 witness: on a connected controller whose driver blacklist is
["other", "dev"], adding "dev" again leaves the state unchanged. -/
theorem addDeviceToBlacklist_rmw_idempotent_witness :
    "dev" ∈ hidHideConnectedState.driverBlacklist ∧
    (addDeviceToBlacklist hidHideConnectedState "dev").2 = hidHideConnectedState :=
  ⟨by simp [hidHideConnectedState],
    (addDeviceToBlacklist_rmw_idempotent hidHideConnectedState "dev").2.1
      (by simp [hidHideConnectedState])⟩

/-! ## Claim C9 -/

theorem find?_markDisconnected (devices : List VirtualDevice) (userId : Int) (ty : TargetType) :
    (markDisconnected devices userId ty).find? (fun d => d.userId == userId && d.type == ty) =
      (devices.find? (fun d => d.userId == userId && d.type == ty)).map
        (fun d => { d with connected := false }) := by
  induction devices with
  | nil => rfl
  | cons d rest ih =>
    by_cases hd : (d.userId == userId && d.type == ty) = true
    · simp [markDisconnected, List.find?_cons, hd]
    · simp only [markDisconnected, hd, if_false, Bool.false_eq_true, ite_false]
      rw [List.find?_cons_of_neg _ (by simpa using hd),
        List.find?_cons_of_neg _ (by simpa using hd)]
      exact ih

/-- Claim C9: while the emulator is initialized, `sendInput` returns true
for every input vector and every driver outcome; per-target failures are not
reflected in the result: a failed entry is appended to the retry queue, and
inside the per-target submit a failed driver update clears the connected
flag of the matching target. -/
theorem sendInput_reports_true_and_queues_failures (s : EmulatorState)
    (hinit : s.initialized = true) :
    (∀ (states : List TranslatedState) (updateOk : TranslatedState → Bool),
      (sendInput s states updateOk).1 = true) ∧
    (∀ (st : TranslatedState) (updateOk : TranslatedState → Bool),
      st.targetType = TargetType.TARGET_XINPUT →
      (sendToVirtualXInputDevice s st.sourceUserId (updateOk st)).1 = false →
      (sendInput s [st] updateOk).2.injectionQueue =
        (sendToVirtualXInputDevice s st.sourceUserId (updateOk st)).2.injectionQueue
          ++ [st]) ∧
    (∀ (userId : Int) (d : VirtualDevice),
      s.virtualDevices.find?
          (fun d => d.userId == userId && d.type == TargetType.TARGET_XINPUT) = some d →
      d.hasTarget = true → d.connected = true → s.vigemClientValid = true →
      (sendToVirtualXInputDevice s userId false).1 = false ∧
      (sendToVirtualXInputDevice s userId false).2.virtualDevices.find?
          (fun d => d.userId == userId && d.type == TargetType.TARGET_XINPUT) =
        some { d with connected := false }) := by
  refine ⟨?_, ?_, ?_⟩
  · intro states updateOk
    simp [sendInput, hinit]
  · intro st updateOk hty hfail
    simp only [sendInput, hinit, Bool.not_true, if_false, Bool.false_eq_true, ite_false,
      List.foldl_cons, List.foldl_nil, hty, hfail]
  · intro userId d hfound hht hcon hvig
    constructor
    · simp [sendToVirtualXInputDevice, hfound, hht, hcon, hvig]
    · simp only [sendToVirtualXInputDevice, hfound, hht, hcon, hvig, Bool.not_true,
        Bool.or_self, if_false, Bool.false_eq_true, ite_false]
      rw [find?_markDisconnected, hfound]
      simp [hht]

/-- Claim C9 witness: an initialized emulator with one connected XInput
target for user 0, a single entry for user 0, and a driver that rejects the
update: sendInput still returns true, the entry lands in the retry queue,
and the target is marked disconnected. -/
theorem sendInput_reports_true_and_queues_failures_witness :
    ((sendInput emulatorOnePadState [⟨0, TargetType.TARGET_XINPUT⟩] (fun _ => false)).1
      = true) ∧
    ((sendInput emulatorOnePadState
        [⟨0, TargetType.TARGET_XINPUT⟩] (fun _ => false)).2.injectionQueue =
      (sendToVirtualXInputDevice emulatorOnePadState 0 false).2.injectionQueue
          ++ [⟨0, TargetType.TARGET_XINPUT⟩]) ∧
    ((sendToVirtualXInputDevice emulatorOnePadState 0 false).2.virtualDevices.find?
        (fun d => d.userId == 0 && d.type == TargetType.TARGET_XINPUT) =
      some { padDevice0 with connected := false }) :=
  ⟨(sendInput_reports_true_and_queues_failures emulatorOnePadState rfl).1
      [⟨0, TargetType.TARGET_XINPUT⟩] (fun _ => false),
    (sendInput_reports_true_and_queues_failures emulatorOnePadState rfl).2.1
      ⟨0, TargetType.TARGET_XINPUT⟩ (fun _ => false) rfl (by decide),
    ((sendInput_reports_true_and_queues_failures emulatorOnePadState rfl).2.2 0 padDevice0
      (by decide) rfl rfl rfl).2⟩

/-! ## Claim C4 -/

/-- Claim C4 (code bug): in the reachable session where HidHide integration
is enabled, device "devX" is hidden (so it sits in the hidden set and on the
driver blacklist), and integration is then disabled before shutdown,
`DeviceManager::cleanup` skips the whole unhide block: afterwards the hidden
set still holds "devX" (it is not empty, contradicting the claim) and the
entry is still on the filter-driver blacklist. -/
theorem cleanup_leaves_hidden_when_integration_disabled :
    traceHideDevice.2.2.hiddenDeviceIds = ["devX"] ∧
    traceCleanupResult.2.2.hiddenDeviceIds = ["devX"] ∧
    traceCleanupResult.2.1.driverBlacklist.contains "devX" = true ∧
    (["devX"] : List String) ≠ [] := by
  refine ⟨?_, ?_, ?_, ?_⟩ <;> decide

end XDProxy
